import Mathlib

/-!
Shallow embedding of the core logic of the image-generator repository:
the error classifier (`parseApiError`, `getUserFriendlyErrorMessage`),
the response parser (`processImageResponse`), the generation client
(`generateImage`, `editImage` with the `ensureAi` credential guard), and
the two conversation submit handlers (`chatHandleSendMessage` from
Chatbot.tsx and `studioHandleSubmit` from ImageStudio.tsx).

JavaScript strings are modelled as Lean `String`; `String.prototype.includes`
is modelled by `includes` (substring containment on the character list),
`toLowerCase` by `jsToLower` (ASCII character map), and JS truthiness of an
optional string field by `truthyStr` (present and non-empty).
-/

/-! ### JS string primitives -/

/-- The apostrophe character, spliced into message templates. -/
def apos : String := String.singleton (Char.ofNat 39)

/-- Model of `String.prototype.toLowerCase` (ASCII case map). -/
def jsToLower (s : String) : String := String.mk (s.data.map Char.toLower)

/-- Model of `String.prototype.trim`: strip leading and trailing
whitespace (structural recursion, so it reduces in the kernel). -/
def jsTrim (s : String) : String :=
  String.mk (((s.data.dropWhile Char.isWhitespace).reverse.dropWhile
    Char.isWhitespace).reverse)

/-- Does the haystack start with the needle? -/
def strStartsWith : List Char → List Char → Bool
  | _, [] => true
  | [], _ :: _ => false
  | h :: hs, n :: ns => h == n && strStartsWith hs ns

/-- Does the needle occur as a contiguous run inside the haystack? -/
def hasSub : List Char → List Char → Bool
  | [], n => n.isEmpty
  | h :: hs, n => strStartsWith (h :: hs) n || hasSub hs n

/-- Model of `String.prototype.includes`. -/
def includes (hay needle : String) : Bool := hasSub hay.data needle.data

/-- JS truthiness of an optional string field: present and non-empty. -/
def truthyStr : Option String → Bool
  | none => false
  | some s => !(s == "")

/-! ### Error classifier (`errorHandler` section of `geminiService.ts`) -/

-- The string values of the `ErrorType` TS enum.
namespace ErrorType

def API_KEY_INVALID : String := "API_KEY_INVALID"

def RATE_LIMIT_EXCEEDED : String := "RATE_LIMIT_EXCEEDED"

def QUOTA_EXCEEDED : String := "QUOTA_EXCEEDED"

def NETWORK_ERROR : String := "NETWORK_ERROR"

def SERVICE_UNAVAILABLE : String := "SERVICE_UNAVAILABLE"

def CONTENT_BLOCKED : String := "CONTENT_BLOCKED"

def UNKNOWN_ERROR : String := "UNKNOWN_ERROR"

def API_NOT_CONFIGURED : String := "API_NOT_CONFIGURED"

end ErrorType

/-- The `ApiError` interface: `{ type, message, userFriendlyMessage }`.
`message` is `Option` because a passed-through object may lack the field. -/
structure ApiError where
  type : String
  message : Option String
  userFriendlyMessage : String
deriving DecidableEq

/-- A JS value thrown or rejected into the error path: either a primitive
(whose `String(...)` coercion is recorded) or an object with optional
`type` / `message` / `userFriendlyMessage` fields, an `instanceof Error`
flag, and its `String(...)` coercion. -/
inductive ErrValue where
  | primitive (toStr : String)
  | obj (isError : Bool) (typeField : Option String) (message : Option String)
      (userFriendlyMessage : Option String) (toStr : String)
deriving DecidableEq

/-- `error instanceof Error ? error.message : String(error)`. -/
def errorMessageOf : ErrValue → String
  | .primitive s => s
  | .obj isError _ m _ toStr => if isError then m.getD "" else toStr

/-- Does the value satisfy the pass-through test of the classifier,
that is, are both the type key and the userFriendlyMessage key present? -/
def isPreClassified : ErrValue → Bool
  | .obj _ (some _) _ (some _) _ => true
  | _ => false

/-- Does the value carry a `userFriendlyMessage` field? -/
def hasUfmField : ErrValue → Bool
  | .obj _ _ _ (some _) _ => true
  | _ => false

/-- The `type` field of the value, when it is an object carrying one. -/
def typeFieldOf : ErrValue → Option String
  | .primitive _ => none
  | .obj _ t _ _ _ => t

def isAuthError (s : String) : Bool :=
  includes s "api key" || includes s "invalid api key" || includes s "unauthorized" ||
    includes s "401" || includes s "403" || includes s "authentication" ||
    includes s "permission denied"

def isRateLimitError (s : String) : Bool :=
  includes s "rate limit" || includes s "429" || includes s "too many requests" ||
    includes s "request rate"

def isQuotaError (s : String) : Bool :=
  includes s "quota" || includes s "quota exceeded" || includes s "billing" ||
    includes s "payment" || includes s "resource exhausted"

def isNetworkError (s : String) : Bool :=
  includes s "network" || includes s "fetch" || includes s "connection" ||
    includes s "timeout" || includes s "econnrefused" || includes s "enotfound"

def isServiceUnavailableError (s : String) : Bool :=
  includes s "503" || includes s "service unavailable" ||
    includes s "temporarily unavailable" || includes s "maintenance"

def isContentBlockedError (s : String) : Bool :=
  includes s "blocked" || includes s "safety" || includes s "content policy" ||
    includes s "not allowed"

def msgApiKeyInvalid : String :=
  "API key is invalid or has been revoked. Please check your API_KEY in the .env file and ensure it" ++
    apos ++ "s correct."

def msgRateLimit : String :=
  "Rate limit exceeded. Please wait a few moments and try again. Too many requests were made in a short time."

def msgQuota : String :=
  "API quota has been exceeded. Your API key has reached its usage limit. Please check your billing and quota limits, or wait until the quota resets."

def msgNetwork : String :=
  "Network error. Please check your internet connection and try again. If the problem persists, the API service may be temporarily unavailable."

def msgServiceUnavailable : String :=
  "Service is temporarily unavailable. The API service is down or under maintenance. Please try again later."

def msgContentBlocked : String :=
  "Request blocked. The content violates the API" ++ apos ++
    "s safety policies. Please try rephrasing your request."

def msgUnknown (errorMessage : String) : String :=
  "An unexpected error occurred: " ++ errorMessage ++
    ". Please try again or contact support if the issue persists."

/-- The keyword cascade of `parseApiError` applied to a raw message
(the code after the pass-through check). -/
def classifyMessage (errorMessage : String) : ApiError :=
  let errorString := jsToLower errorMessage
  if isAuthError errorString then
    { type := ErrorType.API_KEY_INVALID, message := some errorMessage,
      userFriendlyMessage := msgApiKeyInvalid }
  else if isRateLimitError errorString then
    { type := ErrorType.RATE_LIMIT_EXCEEDED, message := some errorMessage,
      userFriendlyMessage := msgRateLimit }
  else if isQuotaError errorString then
    { type := ErrorType.QUOTA_EXCEEDED, message := some errorMessage,
      userFriendlyMessage := msgQuota }
  else if isNetworkError errorString then
    { type := ErrorType.NETWORK_ERROR, message := some errorMessage,
      userFriendlyMessage := msgNetwork }
  else if isServiceUnavailableError errorString then
    { type := ErrorType.SERVICE_UNAVAILABLE, message := some errorMessage,
      userFriendlyMessage := msgServiceUnavailable }
  else if isContentBlockedError errorString then
    { type := ErrorType.CONTENT_BLOCKED, message := some errorMessage,
      userFriendlyMessage := msgContentBlocked }
  else
    { type := ErrorType.UNKNOWN_ERROR, message := some errorMessage,
      userFriendlyMessage := msgUnknown errorMessage }

/-- `parseApiError`: pass through an already-classified shape, otherwise
classify the derived message through the keyword cascade. -/
def parseApiError (e : ErrValue) : ApiError :=
  match e with
  | .obj _ (some t) m (some u) _ =>
    { type := t, message := m, userFriendlyMessage := u }
  | _ => classifyMessage (errorMessageOf e)

/-- `getUserFriendlyErrorMessage`: return the `userFriendlyMessage` field
when present, otherwise classify and return the classified message. -/
def getUserFriendlyErrorMessage (e : ErrValue) : String :=
  match e with
  | .obj _ _ _ (some u) _ => u
  | _ => (parseApiError e).userFriendlyMessage

/-! ### Response envelope and parser (`processImageResponse`) -/

structure InlineData where
  mimeType : String
  data : String
deriving DecidableEq

structure RespPart where
  inlineData : Option InlineData
deriving DecidableEq

structure Content where
  parts : Option (List RespPart)
deriving DecidableEq

structure Candidate where
  content : Option Content
  finishReason : Option String
deriving DecidableEq

structure PromptFeedback where
  blockReason : Option String
  blockReasonMessage : Option String
deriving DecidableEq

structure GenerateContentResponse where
  candidates : Option (List Candidate)
  promptFeedback : Option PromptFeedback
  text : Option String
deriving DecidableEq

/-- `response.candidates?.[0]`. -/
def firstCandidate (r : GenerateContentResponse) : Option Candidate :=
  match r.candidates with
  | some (c :: _) => some c
  | _ => none

/-- `response.candidates?.[0]?.content?.parts || []`. -/
def firstParts (r : GenerateContentResponse) : List RespPart :=
  match firstCandidate r with
  | some c =>
    match c.content with
    | some ct => ct.parts.getD []
    | none => []
  | none => []

/-- The first part of the list carrying `inlineData`, as found by the
`for ... if (part.inlineData)` loop. -/
def findInline : List RespPart → Option InlineData
  | [] => none
  | p :: ps =>
    match p.inlineData with
    | some d => some d
    | none => findInline ps

def noImageGenericMsg : String :=
  "The model was unable to generate an image for this prompt. Please try rephrasing your request."

def noImageFoundMsg : String :=
  "No image data found in response. The model may have failed to generate an image for the given prompt."

/-- Message raised when finish reason is NO_IMAGE and the response carries text. -/
def noImageExplanationMsg (t : String) : String :=
  "Model provided an explanation instead of an image: \"" ++ t ++ "\""

/-- Message raised by the final text check. -/
def textInsteadMsg (t : String) : String :=
  "Model returned a text explanation instead of an image: \"" ++ t ++ "\""

/-- `processImageResponse`: priority cascade over the response envelope.
A thrown `Error` is modelled as `Except.error` of its message. -/
def processImageResponse (r : GenerateContentResponse) : Except String String :=
  match findInline (firstParts r) with
  | some d => .ok ("data:" ++ d.mimeType ++ ";base64," ++ d.data)
  | none =>
    let br := r.promptFeedback.bind (fun pf => pf.blockReason)
    if truthyStr br then
      let reason := "Request blocked due to " ++ br.getD "" ++ "."
      let brm := r.promptFeedback.bind (fun pf => pf.blockReasonMessage)
      .error (if truthyStr brm then reason ++ " " ++ brm.getD "" else reason)
    else
      let fr := (firstCandidate r).bind (fun c => c.finishReason)
      if truthyStr fr && !(fr.getD "" == "STOP") then
        if fr.getD "" == "NO_IMAGE" then
          if truthyStr r.text then
            .error (noImageExplanationMsg (jsTrim (r.text.getD "")))
          else
            .error noImageGenericMsg
        else
          .error ("Image generation stopped unexpectedly. Reason: " ++ fr.getD "" ++ ".")
      else
        if truthyStr r.text then
          .error (textInsteadMsg (jsTrim (r.text.getD "")))
        else
          .error noImageFoundMsg

/-! ### Generation client (`ensureAi`, `generateImage`, `editImage`) -/

/-- The message of the error thrown by `ensureAi` when no API key is set. -/
def ensureAiMessage : String :=
  "Gemini API key not configured. Please set the API_KEY environment variable."

/-- A freshly thrown `new Error(m)` as an `ErrValue`: an `Error` instance
with no `type` or `userFriendlyMessage` field. -/
def jsThrow (m : String) : ErrValue := .obj true none (some m) none m

/-- An uploaded file: its mime type, base64 payload and object URL. -/
structure JsFile where
  mimeType : String
  base64 : String
  objectUrl : String
deriving DecidableEq

/-- `fileToGenerativePart`: inline base64 payload paired with the mime type. -/
def fileToGenerativePart (f : JsFile) : RespPart :=
  { inlineData := some { mimeType := f.mimeType, data := f.base64 } }

/-- `generateImage`, with the remote round trip abstracted as `net` (the
transport outcome observed when a request is actually issued). Returns the
call result plus a flag recording whether a network request was attempted. -/
def generateImage (ai : Option Unit) (net : Except ErrValue GenerateContentResponse) :
    Except ErrValue String × Bool :=
  match ai with
  | none => (.error (jsThrow ensureAiMessage), false)
  | some _ =>
    match net with
    | .error e => (.error e, true)
    | .ok r =>
      match processImageResponse r with
      | .ok u => (.ok u, true)
      | .error m => (.error (jsThrow m), true)

/-- `editImage`: same guard and delegation; the image is encoded by
`fileToGenerativePart` and attached alongside the prompt. -/
def editImage (ai : Option Unit) (_prompt : String) (_image : JsFile)
    (net : Except ErrValue GenerateContentResponse) :
    Except ErrValue String × Bool :=
  match ai with
  | none => (.error (jsThrow ensureAiMessage), false)
  | some _ =>
    match net with
    | .error e => (.error e, true)
    | .ok r =>
      match processImageResponse r with
      | .ok u => (.ok u, true)
      | .error m => (.error (jsThrow m), true)

/-! ### Conversation submit handlers -/

structure ChatMessage where
  role : String
  text : String
deriving DecidableEq

structure ChatState where
  chat : Bool
  messages : List ChatMessage
  currentMessage : String
  isLoading : Bool
  isApiReady : Bool
deriving DecidableEq

/-- `Chatbot.handleSendMessage`: guard, optimistic user append, then append
the model reply or the classified error message. The returned flag records
whether the network call was issued. -/
def chatHandleSendMessage (st : ChatState) (result : Except ErrValue String) :
    ChatState × Bool :=
  if (jsTrim st.currentMessage == "") || st.isLoading || !st.chat || !st.isApiReady then
    (st, false)
  else
    let userMessage : ChatMessage := { role := "user", text := st.currentMessage }
    let st1 := { st with
      messages := st.messages ++ [userMessage]
      currentMessage := ""
      isLoading := true }
    match result with
    | .ok text =>
      ({ st1 with
         messages := st1.messages ++ [{ role := "model", text := text }]
         isLoading := false }, true)
    | .error e =>
      ({ st1 with
         messages := st1.messages ++
           [{ role := "model", text := "❌ " ++ getUserFriendlyErrorMessage e }]
         isLoading := false }, true)

structure StudioMessage where
  id : String
  role : String
  text : Option String
  imageUrl : Option String
  originalImageUrl : Option String
deriving DecidableEq

structure StudioState where
  messages : List StudioMessage
  prompt : String
  imageFile : Option JsFile
  isLoading : Bool
  error : Option String
  isApiReady : Bool
deriving DecidableEq

/-- The message the studio handler derives from a caught value: the
message field of an Error instance, else a fixed unknown-error sentence. -/
def jsErrMessage : ErrValue → String
  | .obj true _ m _ _ => m.getD ""
  | _ => "An unknown error occurred."

/-- The error text `ImageStudio` appends to the transcript on failure. -/
def studioSorryMsg (m : String) : String :=
  "Sorry, I couldn" ++ apos ++ "t generate the image. Error: " ++ m

/-- The success text `ImageStudio` appends alongside the generated image. -/
def studioResultMsg (p : String) : String :=
  "Here" ++ apos ++ "s an image based on your prompt: \"" ++ p ++ "\""

/-- `ImageStudio.handleSubmit`: guard, optimistic user append with cleared
inputs, then append the model result or the raw-message apology. `idNow` and
`idNext` stand for the two `Date.now()`-derived ids. -/
def studioHandleSubmit (st : StudioState) (idNow idNext : String)
    (result : Except ErrValue String) : StudioState × Bool :=
  if (jsTrim st.prompt == "") || st.isLoading || !st.isApiReady then
    (st, false)
  else
    let userMessage : StudioMessage :=
      { id := idNow
        role := "user"
        text := some st.prompt
        imageUrl := none
        originalImageUrl := st.imageFile.map (fun f => f.objectUrl) }
    let currentPrompt := st.prompt
    let currentImageFile := st.imageFile
    let st1 := { st with
      messages := st.messages ++ [userMessage]
      isLoading := true
      error := none
      prompt := ""
      imageFile := none }
    match result with
    | .ok imageUrl =>
      let modelMessage : StudioMessage :=
        { id := idNext
          role := "model"
          text := some (studioResultMsg currentPrompt)
          imageUrl := some imageUrl
          originalImageUrl := currentImageFile.map (fun f => f.objectUrl) }
      ({ st1 with
         messages := st1.messages ++ [modelMessage]
         isLoading := false }, true)
    | .error err =>
      let errorMessage := jsErrMessage err
      let errorModelMessage : StudioMessage :=
        { id := idNext
          role := "model"
          text := some (studioSorryMsg errorMessage)
          imageUrl := none
          originalImageUrl := none }
      ({ st1 with
         messages := st1.messages ++ [errorModelMessage]
         error := some ("Failed to generate image: " ++ errorMessage)
         isLoading := false }, true)

/-! ### Helper lemmas about the string primitives -/

theorem strDataAppend (a b : String) : (a ++ b).data = a.data ++ b.data := rfl

theorem strStartsWith_nil (l : List Char) : strStartsWith l [] = true := by
  cases l <;> rfl

theorem strStartsWith_append_of (l n t : List Char) (h : strStartsWith l n = true) :
    strStartsWith (l ++ t) n = true := by
  induction n generalizing l with
  | nil => exact strStartsWith_nil _
  | cons c cs ih =>
    cases l with
    | nil => simp [strStartsWith] at h
    | cons x xs =>
      rw [List.cons_append]
      rw [strStartsWith, Bool.and_eq_true] at h ⊢
      exact ⟨h.1, ih xs h.2⟩

theorem strStartsWith_self_append (n t : List Char) : strStartsWith (n ++ t) n = true := by
  induction n with
  | nil => exact strStartsWith_nil _
  | cons c cs ih =>
    rw [List.cons_append, strStartsWith, Bool.and_eq_true]
    exact ⟨by simp, ih⟩

theorem hasSub_nil_needle (l : List Char) : hasSub l [] = true := by
  cases l with
  | nil => rfl
  | cons h t => rw [hasSub, strStartsWith_nil]; rfl

theorem hasSub_self (l : List Char) : hasSub l l = true := by
  cases l with
  | nil => rfl
  | cons x xs =>
    rw [hasSub, Bool.or_eq_true]
    refine Or.inl ?_
    have h := strStartsWith_self_append (x :: xs) []
    rwa [List.append_nil] at h

theorem hasSub_append_right (a b n : List Char) (h : hasSub b n = true) :
    hasSub (a ++ b) n = true := by
  induction a with
  | nil => simpa using h
  | cons x xs ih =>
    rw [List.cons_append, hasSub, Bool.or_eq_true]
    exact Or.inr ih

theorem hasSub_append_left (a b n : List Char) (h : hasSub a n = true) :
    hasSub (a ++ b) n = true := by
  induction a with
  | nil =>
    rw [hasSub] at h
    have hn : n = [] := by
      cases n with
      | nil => rfl
      | cons c cs => simp at h
    subst hn
    exact hasSub_nil_needle _
  | cons x xs ih =>
    rw [hasSub, Bool.or_eq_true] at h
    rw [List.cons_append, hasSub, Bool.or_eq_true]
    rcases h with h1 | h2
    · refine Or.inl ?_
      have h3 := strStartsWith_append_of (x :: xs) n b h1
      rwa [List.cons_append] at h3
    · exact Or.inr (ih h2)

theorem includes_append_left (a b n : String) (h : includes a n = true) :
    includes (a ++ b) n = true := by
  unfold includes at h ⊢
  rw [strDataAppend]
  exact hasSub_append_left _ _ _ h

theorem includes_append_right (a b n : String) (h : includes b n = true) :
    includes (a ++ b) n = true := by
  unfold includes at h ⊢
  rw [strDataAppend]
  exact hasSub_append_right _ _ _ h

theorem includes_append_self (a b : String) : includes (a ++ b) b = true := by
  unfold includes
  rw [strDataAppend]
  exact hasSub_append_right _ _ _ (hasSub_self _)

theorem jsToLower_append (a b : String) :
    jsToLower (a ++ b) = jsToLower a ++ jsToLower b := by
  unfold jsToLower
  exact congrArg String.mk (by rw [strDataAppend, List.map_append])

theorem append_ne_empty_left (a b : String) (h : a ≠ "") : a ++ b ≠ "" := by
  intro hc
  apply h
  have hd : a.data ++ b.data = [] := by
    have h2 := congrArg String.data hc
    rwa [strDataAppend] at h2
  exact String.ext (List.append_eq_nil.mp hd).1

/-! ### Helper lemmas about the classifier -/

theorem parseApiError_fresh (e : ErrValue) (h : isPreClassified e = false) :
    parseApiError e = classifyMessage (errorMessageOf e) := by
  cases e with
  | primitive s => rfl
  | obj b t m u ts =>
    cases t with
    | none => rfl
    | some t0 =>
      cases u with
      | none => rfl
      | some u0 => simp [isPreClassified] at h

theorem getUserFriendly_fresh (e : ErrValue) (h : hasUfmField e = false) :
    getUserFriendlyErrorMessage e = (parseApiError e).userFriendlyMessage := by
  cases e with
  | primitive s => rfl
  | obj b t m u ts =>
    cases u with
    | none => rfl
    | some u0 => simp [hasUfmField] at h

theorem isPreClassified_false_of_noUfm (e : ErrValue) (h : hasUfmField e = false) :
    isPreClassified e = false := by
  cases e with
  | primitive s => rfl
  | obj b t m u ts =>
    cases u with
    | none => cases t <;> rfl
    | some u0 => simp [hasUfmField] at h

theorem classifyMessage_auth (m : String) (h : isAuthError (jsToLower m) = true) :
    classifyMessage m =
      { type := ErrorType.API_KEY_INVALID, message := some m,
        userFriendlyMessage := msgApiKeyInvalid } := by
  unfold classifyMessage
  simp [h]

theorem classifyMessage_contentBlocked (m : String)
    (h1 : isAuthError (jsToLower m) = false) (h2 : isRateLimitError (jsToLower m) = false)
    (h3 : isQuotaError (jsToLower m) = false) (h4 : isNetworkError (jsToLower m) = false)
    (h5 : isServiceUnavailableError (jsToLower m) = false)
    (h6 : isContentBlockedError (jsToLower m) = true) :
    classifyMessage m =
      { type := ErrorType.CONTENT_BLOCKED, message := some m,
        userFriendlyMessage := msgContentBlocked } := by
  unfold classifyMessage
  simp [h1, h2, h3, h4, h5, h6]

theorem classifyMessage_unknown (m : String)
    (h1 : isAuthError (jsToLower m) = false) (h2 : isRateLimitError (jsToLower m) = false)
    (h3 : isQuotaError (jsToLower m) = false) (h4 : isNetworkError (jsToLower m) = false)
    (h5 : isServiceUnavailableError (jsToLower m) = false)
    (h6 : isContentBlockedError (jsToLower m) = false) :
    classifyMessage m =
      { type := ErrorType.UNKNOWN_ERROR, message := some m,
        userFriendlyMessage := msgUnknown m } := by
  unfold classifyMessage
  simp [h1, h2, h3, h4, h5, h6]

theorem classifyMessage_type_mem (m : String) :
    (classifyMessage m).type = ErrorType.API_KEY_INVALID ∨
    (classifyMessage m).type = ErrorType.RATE_LIMIT_EXCEEDED ∨
    (classifyMessage m).type = ErrorType.QUOTA_EXCEEDED ∨
    (classifyMessage m).type = ErrorType.NETWORK_ERROR ∨
    (classifyMessage m).type = ErrorType.SERVICE_UNAVAILABLE ∨
    (classifyMessage m).type = ErrorType.CONTENT_BLOCKED ∨
    (classifyMessage m).type = ErrorType.UNKNOWN_ERROR := by
  by_cases h1 : isAuthError (jsToLower m) = true
  · simp [classifyMessage, h1]
  by_cases h2 : isRateLimitError (jsToLower m) = true
  · simp [classifyMessage, h1, h2]
  by_cases h3 : isQuotaError (jsToLower m) = true
  · simp [classifyMessage, h1, h2, h3]
  by_cases h4 : isNetworkError (jsToLower m) = true
  · simp [classifyMessage, h1, h2, h3, h4]
  by_cases h5 : isServiceUnavailableError (jsToLower m) = true
  · simp [classifyMessage, h1, h2, h3, h4, h5]
  by_cases h6 : isContentBlockedError (jsToLower m) = true
  · simp [classifyMessage, h1, h2, h3, h4, h5, h6]
  simp [classifyMessage, h1, h2, h3, h4, h5, h6]

theorem msgUnknown_ne_empty (m : String) : msgUnknown m ≠ "" := by
  unfold msgUnknown
  exact append_ne_empty_left _ _ (append_ne_empty_left _ _ (by decide))

theorem classifyMessage_ufm_ne_empty (m : String) :
    (classifyMessage m).userFriendlyMessage ≠ "" := by
  by_cases h1 : isAuthError (jsToLower m) = true
  · simp [classifyMessage, h1]; decide
  by_cases h2 : isRateLimitError (jsToLower m) = true
  · simp [classifyMessage, h1, h2]; decide
  by_cases h3 : isQuotaError (jsToLower m) = true
  · simp [classifyMessage, h1, h2, h3]; decide
  by_cases h4 : isNetworkError (jsToLower m) = true
  · simp [classifyMessage, h1, h2, h3, h4]; decide
  by_cases h5 : isServiceUnavailableError (jsToLower m) = true
  · simp [classifyMessage, h1, h2, h3, h4, h5]; decide
  by_cases h6 : isContentBlockedError (jsToLower m) = true
  · simp [classifyMessage, h1, h2, h3, h4, h5, h6]; decide
  simp only [classifyMessage, h1, h2, h3, h4, h5, h6, if_false, if_neg, eq_self_iff_true]
  exact msgUnknown_ne_empty m

/-! ### Claims about the classifier -/

/-- Claim C4: an input value already shaped as a classified error (carrying
both the type field and the userFriendlyMessage field) is returned by the
classifier unchanged, field for field (idempotent pass-through). -/
theorem claim_C4_passthrough (b : Bool) (t : String) (m : Option String)
    (u ts : String) :
    parseApiError (.obj b (some t) m (some u) ts) =
      { type := t, message := m, userFriendlyMessage := u } := rfl

/-- Claim C5: a raw (not pre-classified) error whose lower-cased message
contains at least one auth keyword classifies as API_KEY_INVALID, with no
assumption about which later-priority keywords also occur in the message. -/
theorem claim_C5_auth_priority (e : ErrValue)
    (hraw : isPreClassified e = false)
    (hkw : includes (jsToLower (errorMessageOf e)) "api key" = true ∨
           includes (jsToLower (errorMessageOf e)) "unauthorized" = true ∨
           includes (jsToLower (errorMessageOf e)) "401" = true ∨
           includes (jsToLower (errorMessageOf e)) "403" = true ∨
           includes (jsToLower (errorMessageOf e)) "authentication" = true ∨
           includes (jsToLower (errorMessageOf e)) "permission denied" = true) :
    (parseApiError e).type = ErrorType.API_KEY_INVALID := by
  have hauth : isAuthError (jsToLower (errorMessageOf e)) = true := by
    unfold isAuthError
    rcases hkw with h | h | h | h | h | h <;> simp [h]
  rw [parseApiError_fresh e hraw, classifyMessage_auth _ hauth]

/-- Witness for C5: a message containing both the auth keyword 401 and the
network keywords network and connection still classifies as key-invalid. -/
theorem claim_C5_auth_priority_witness :
    isPreClassified (jsThrow "Error 401: network connection failure") = false ∧
    (parseApiError (jsThrow "Error 401: network connection failure")).type =
      ErrorType.API_KEY_INVALID :=
  ⟨rfl, claim_C5_auth_priority (jsThrow "Error 401: network connection failure") rfl
    (Or.inr (Or.inr (Or.inl (by decide))))⟩

/-- Claim C10: an input without a pre-set type field never classifies as
API_NOT_CONFIGURED; fresh classification only produces the seven other
categories. -/
theorem claim_C10_notConfigured_unreachable (e : ErrValue)
    (h : typeFieldOf e = none) :
    (parseApiError e).type ≠ ErrorType.API_NOT_CONFIGURED ∧
    ((parseApiError e).type = ErrorType.API_KEY_INVALID ∨
     (parseApiError e).type = ErrorType.RATE_LIMIT_EXCEEDED ∨
     (parseApiError e).type = ErrorType.QUOTA_EXCEEDED ∨
     (parseApiError e).type = ErrorType.NETWORK_ERROR ∨
     (parseApiError e).type = ErrorType.SERVICE_UNAVAILABLE ∨
     (parseApiError e).type = ErrorType.CONTENT_BLOCKED ∨
     (parseApiError e).type = ErrorType.UNKNOWN_ERROR) := by
  have hfresh : parseApiError e = classifyMessage (errorMessageOf e) := by
    cases e with
    | primitive s => rfl
    | obj b t m u ts =>
      cases t with
      | none => cases u <;> rfl
      | some t0 => simp [typeFieldOf] at h
  constructor
  · rw [hfresh]
    rcases classifyMessage_type_mem (errorMessageOf e) with h | h | h | h | h | h | h <;>
      rw [h] <;> decide
  · rw [hfresh]
    exact classifyMessage_type_mem (errorMessageOf e)

/-- Witness for C10 at a primitive thrown value. -/
theorem claim_C10_witness :
    typeFieldOf (ErrValue.primitive "boom") = none ∧
    (parseApiError (ErrValue.primitive "boom")).type ≠ ErrorType.API_NOT_CONFIGURED :=
  ⟨rfl, (claim_C10_notConfigured_unreachable (ErrValue.primitive "boom") rfl).1⟩

/-- Counterexample to C8 as stated: a value already shaped as a classified
error but carrying an empty userFriendlyMessage is passed through verbatim,
so both the classifier and getUserFriendlyErrorMessage return the empty
string for it. -/
theorem claim_C8_counterexample :
    (parseApiError
        (ErrValue.obj false (some "UNKNOWN_ERROR") none (some "") "x")).userFriendlyMessage =
      "" ∧
    getUserFriendlyErrorMessage (ErrValue.obj false none none (some "") "x") = "" :=
  ⟨rfl, rfl⟩

/-- Claim C8 (amended): for every input that does not already carry a
userFriendlyMessage field, both the classifier and
getUserFriendlyErrorMessage produce a non-empty user-facing message, and
when no keyword category matches, the raw message is interpolated into the
unknown template. -/
theorem claim_C8_nonEmpty_message (e : ErrValue) (h : hasUfmField e = false) :
    (parseApiError e).userFriendlyMessage ≠ "" ∧
    getUserFriendlyErrorMessage e ≠ "" ∧
    ((isAuthError (jsToLower (errorMessageOf e)) = false ∧
      isRateLimitError (jsToLower (errorMessageOf e)) = false ∧
      isQuotaError (jsToLower (errorMessageOf e)) = false ∧
      isNetworkError (jsToLower (errorMessageOf e)) = false ∧
      isServiceUnavailableError (jsToLower (errorMessageOf e)) = false ∧
      isContentBlockedError (jsToLower (errorMessageOf e)) = false) →
      (parseApiError e).userFriendlyMessage = msgUnknown (errorMessageOf e)) := by
  have hpre := isPreClassified_false_of_noUfm e h
  have hfresh := parseApiError_fresh e hpre
  refine ⟨?_, ?_, ?_⟩
  · rw [hfresh]
    exact classifyMessage_ufm_ne_empty _
  · rw [getUserFriendly_fresh e h, hfresh]
    exact classifyMessage_ufm_ne_empty _
  · rintro ⟨h1, h2, h3, h4, h5, h6⟩
    rw [hfresh, classifyMessage_unknown _ h1 h2 h3 h4 h5 h6]

/-- Witness for C8 at a freshly thrown error. -/
theorem claim_C8_witness :
    hasUfmField (jsThrow "boom") = false ∧
    (parseApiError (jsThrow "boom")).userFriendlyMessage ≠ "" ∧
    getUserFriendlyErrorMessage (jsThrow "boom") ≠ "" :=
  ⟨rfl, (claim_C8_nonEmpty_message (jsThrow "boom") rfl).1,
    (claim_C8_nonEmpty_message (jsThrow "boom") rfl).2.1⟩

/-! ### Claims about the generation client -/

def emptyResponse : GenerateContentResponse :=
  { candidates := none, promptFeedback := none, text := none }

/-- Counterexample to C1 as stated: with no credential configured,
generateImage does fail fast without a network attempt, but the thrown
message classifies as API_KEY_INVALID, not API_NOT_CONFIGURED. -/
theorem claim_C1_counterexample :
    generateImage none (Except.ok emptyResponse) =
      (Except.error (jsThrow ensureAiMessage), false) ∧
    (parseApiError (jsThrow ensureAiMessage)).type ≠ ErrorType.API_NOT_CONFIGURED ∧
    (parseApiError (jsThrow ensureAiMessage)).type = ErrorType.API_KEY_INVALID := by
  refine ⟨rfl, ?_, ?_⟩ <;> decide

/-- Claim C1 (amended): when no API credential is configured, generateImage
and editImage fail immediately with the key-not-configured error message and
no network request is attempted; once classified at the UI boundary this
failure is categorized as API_KEY_INVALID. -/
theorem claim_C1_failFast (net : Except ErrValue GenerateContentResponse)
    (prompt : String) (image : JsFile) :
    generateImage none net = (Except.error (jsThrow ensureAiMessage), false) ∧
    editImage none prompt image net = (Except.error (jsThrow ensureAiMessage), false) ∧
    (parseApiError (jsThrow ensureAiMessage)).type = ErrorType.API_KEY_INVALID :=
  ⟨rfl, rfl, by decide⟩

/-! ### Claims about the response parser -/

theorem findInline_isSome_of_mem (l : List RespPart) (p : RespPart) (d : InlineData)
    (hp : p ∈ l) (hd : p.inlineData = some d) :
    ∃ d0, findInline l = some d0 := by
  induction l with
  | nil => cases hp
  | cons q qs ih =>
    cases hq : q.inlineData with
    | some d1 => exact ⟨d1, by simp [findInline, hq]⟩
    | none =>
      rcases List.mem_cons.mp hp with heq | hmem
      · rw [heq, hq] at hd
        cases hd
      · obtain ⟨d0, h0⟩ := ih hmem
        exact ⟨d0, by simp [findInline, hq, h0]⟩

/-- Claim C2 (amended): when the content of the first candidate has an
inline-data part, the parser succeeds and returns the data URI
`data:mime;base64,payload` built from the first such part, regardless of
any promptFeedback, finishReason or text fields also present. The source
loop reads `candidates?.[0]` only, so inline data in later candidates does
not count. -/
theorem claim_C2_inlineData_success (r : GenerateContentResponse)
    (p : RespPart) (idt : InlineData)
    (hp : p ∈ firstParts r) (hd : p.inlineData = some idt) :
    ∃ d, findInline (firstParts r) = some d ∧
      processImageResponse r =
        Except.ok ("data:" ++ d.mimeType ++ ";base64," ++ d.data) := by
  obtain ⟨d0, h0⟩ := findInline_isSome_of_mem (firstParts r) p idt hp hd
  exact ⟨d0, h0, by simp [processImageResponse, h0]⟩

def partC2 : RespPart := { inlineData := some { mimeType := "image/png", data := "AAAA" } }

def envC2ok : GenerateContentResponse :=
  { candidates := some [{ content := some { parts := some [partC2] }, finishReason := some "STOP" }]
    promptFeedback := some { blockReason := some "SAFETY", blockReasonMessage := none }
    text := some "ignored" }

/-- Witness for C2 on an envelope that also carries promptFeedback and text. -/
theorem claim_C2_witness :
    ∃ d, findInline (firstParts envC2ok) = some d ∧
      processImageResponse envC2ok =
        Except.ok ("data:" ++ d.mimeType ++ ";base64," ++ d.data) :=
  claim_C2_inlineData_success envC2ok partC2
    { mimeType := "image/png", data := "AAAA" } (by decide) rfl

def envC2bad : GenerateContentResponse :=
  { candidates := some
      [{ content := none, finishReason := none },
       { content := some { parts := some [partC2] }, finishReason := none }]
    promptFeedback := none
    text := none }

/-- Counterexample to C2 as stated: an envelope whose second candidate
contains an inline-data part with mime image/png and payload AAAA is not
parsed as a success, because the loop reads only the first candidate. -/
theorem claim_C2_counterexample :
    (∃ c, c ∈ envC2bad.candidates.getD [] ∧ ∃ ct, c.content = some ct ∧
        ∃ p, p ∈ ct.parts.getD [] ∧ p.inlineData =
          some { mimeType := "image/png", data := "AAAA" }) ∧
    processImageResponse envC2bad ≠
      Except.ok ("data:" ++ "image/png" ++ ";base64," ++ "AAAA") := by
  constructor
  · decide
  · intro h
    rw [show processImageResponse envC2bad = Except.error noImageFoundMsg from rfl] at h
    cases h

theorem processImageResponse_blocked (r : GenerateContentResponse) (pf : PromptFeedback)
    (br : String) (hinline : findInline (firstParts r) = none)
    (hpf : r.promptFeedback = some pf) (hbr : pf.blockReason = some br) (hne : br ≠ "") :
    processImageResponse r = Except.error
      (if truthyStr pf.blockReasonMessage
       then "Request blocked due to " ++ br ++ "." ++ " " ++ pf.blockReasonMessage.getD ""
       else "Request blocked due to " ++ br ++ ".") := by
  simp [processImageResponse, hinline, hpf, hbr, truthyStr, hne]

theorem lower_blockedBase_includes (br : String) :
    includes (jsToLower ("Request blocked due to " ++ br ++ ".")) "blocked" = true := by
  rw [jsToLower_append, jsToLower_append]
  exact includes_append_left _ _ _ (includes_append_left _ _ _ (by decide))

theorem blockedMsg_classify (msg : String)
    (hblk : includes (jsToLower msg) "blocked" = true)
    (ha : isAuthError (jsToLower msg) = false)
    (hb : isRateLimitError (jsToLower msg) = false)
    (hc : isQuotaError (jsToLower msg) = false)
    (hd : isNetworkError (jsToLower msg) = false)
    (he : isServiceUnavailableError (jsToLower msg) = false) :
    (parseApiError (jsThrow msg)).type = ErrorType.CONTENT_BLOCKED := by
  have h6 : isContentBlockedError (jsToLower msg) = true := by
    unfold isContentBlockedError
    simp [hblk]
  have hfresh := parseApiError_fresh (jsThrow msg) rfl
  have hmsg : errorMessageOf (jsThrow msg) = msg := rfl
  rw [hfresh, hmsg, classifyMessage_contentBlocked msg ha hb hc hd he h6]

/-- Claim C6 (amended): with no inline-data part and a non-empty
promptFeedback.blockReason, the parser raises an error whose message
mentions the block reason, additionally includes blockReasonMessage when
that field is present and non-empty, and this check takes precedence over
the finishReason and text checks; the message always contains the keyword
blocked, so it classifies as CONTENT_BLOCKED provided the block-reason text
itself introduces no earlier-priority keyword. -/
theorem claim_C6_blockReason (r : GenerateContentResponse) (pf : PromptFeedback)
    (br : String) (hinline : findInline (firstParts r) = none)
    (hpf : r.promptFeedback = some pf) (hbr : pf.blockReason = some br)
    (hne : br ≠ "") :
    ∃ msg, processImageResponse r = Except.error msg ∧
      includes msg br = true ∧
      (∀ brm, pf.blockReasonMessage = some brm → brm ≠ "" → includes msg brm = true) ∧
      includes (jsToLower msg) "blocked" = true ∧
      ((isAuthError (jsToLower msg) = false ∧ isRateLimitError (jsToLower msg) = false ∧
        isQuotaError (jsToLower msg) = false ∧ isNetworkError (jsToLower msg) = false ∧
        isServiceUnavailableError (jsToLower msg) = false) →
        (parseApiError (jsThrow msg)).type = ErrorType.CONTENT_BLOCKED) := by
  have hrun := processImageResponse_blocked r pf br hinline hpf hbr hne
  have hbase : includes ("Request blocked due to " ++ br ++ ".") br = true :=
    includes_append_left _ _ _ (includes_append_self _ _)
  cases hbrm : pf.blockReasonMessage with
  | none =>
    rw [hbrm] at hrun
    simp only [truthyStr, if_false, Bool.false_eq_true] at hrun
    refine ⟨"Request blocked due to " ++ br ++ ".", hrun, hbase, ?_, ?_, ?_⟩
    · intro brm h1 h2
      cases h1
    · exact lower_blockedBase_includes br
    · rintro ⟨ha, hb, hc, hd, he⟩
      exact blockedMsg_classify _ (lower_blockedBase_includes br) ha hb hc hd he
  | some bm =>
    by_cases hbme : bm = ""
    · subst hbme
      rw [hbrm] at hrun
      simp only [truthyStr] at hrun
      norm_num at hrun
      refine ⟨"Request blocked due to " ++ br ++ ".", hrun, hbase, ?_, ?_, ?_⟩
      · intro brm h1 h2
        injection h1 with h1e
        exact absurd h1e.symm h2
      · exact lower_blockedBase_includes br
      · rintro ⟨ha, hb, hc, hd, he⟩
        exact blockedMsg_classify _ (lower_blockedBase_includes br) ha hb hc hd he
    · rw [hbrm] at hrun
      have htm : truthyStr (some bm) = true := by
        simp [truthyStr, hbme]
      rw [htm] at hrun
      simp only [if_true, Option.getD_some] at hrun
      have hblk : includes
          (jsToLower ("Request blocked due to " ++ br ++ "." ++ " " ++ bm)) "blocked" = true := by
        rw [jsToLower_append, jsToLower_append]
        exact includes_append_left _ _ _
          (includes_append_left _ _ _ (lower_blockedBase_includes br))
      refine ⟨"Request blocked due to " ++ br ++ "." ++ " " ++ bm, hrun, ?_, ?_, hblk, ?_⟩
      · exact includes_append_left _ _ _ (includes_append_left _ _ _ hbase)
      · intro brm h1 h2
        injection h1 with h1e
        rw [← h1e]
        exact includes_append_self _ _
      · rintro ⟨ha, hb, hc, hd, he⟩
        exact blockedMsg_classify _ hblk ha hb hc hd he

def envC6safety : GenerateContentResponse :=
  { candidates := some [{ content := none, finishReason := some "IMAGE_SAFETY" }]
    promptFeedback := some { blockReason := some "SAFETY"
                             blockReasonMessage := some "Try different wording" }
    text := some "some text" }

/-- Witness for C6: blockReason SAFETY takes precedence over the
finishReason and text checks and classifies as CONTENT_BLOCKED. -/
theorem claim_C6_witness :
    ∃ msg, processImageResponse envC6safety = Except.error msg ∧
      includes msg "SAFETY" = true ∧
      (∀ brm, PromptFeedback.blockReasonMessage
          { blockReason := some "SAFETY", blockReasonMessage := some "Try different wording" } =
            some brm → brm ≠ "" → includes msg brm = true) ∧
      includes (jsToLower msg) "blocked" = true ∧
      ((isAuthError (jsToLower msg) = false ∧ isRateLimitError (jsToLower msg) = false ∧
        isQuotaError (jsToLower msg) = false ∧ isNetworkError (jsToLower msg) = false ∧
        isServiceUnavailableError (jsToLower msg) = false) →
        (parseApiError (jsThrow msg)).type = ErrorType.CONTENT_BLOCKED) :=
  claim_C6_blockReason envC6safety
    { blockReason := some "SAFETY", blockReasonMessage := some "Try different wording" }
    "SAFETY" rfl rfl rfl (by decide)

def envC6quota : GenerateContentResponse :=
  { candidates := none
    promptFeedback := some { blockReason := some "QUOTA", blockReasonMessage := none }
    text := none }

/-- Counterexample to C6 as stated: with blockReason QUOTA the raised
message classifies as QUOTA_EXCEEDED, not CONTENT_BLOCKED, because the
quota keyword sits earlier in the priority cascade. -/
theorem claim_C6_counterexample :
    processImageResponse envC6quota = Except.error "Request blocked due to QUOTA." ∧
    (parseApiError (jsThrow "Request blocked due to QUOTA.")).type =
      ErrorType.QUOTA_EXCEEDED ∧
    ErrorType.QUOTA_EXCEEDED ≠ ErrorType.CONTENT_BLOCKED := by
  refine ⟨rfl, ?_, ?_⟩ <;> decide

theorem processImageResponse_noImage (r : GenerateContentResponse)
    (hinline : findInline (firstParts r) = none)
    (hbr : truthyStr (r.promptFeedback.bind fun pf => pf.blockReason) = false)
    (hfr : (firstCandidate r).bind (fun c => c.finishReason) = some "NO_IMAGE") :
    processImageResponse r =
      (if truthyStr r.text
       then Except.error (noImageExplanationMsg (jsTrim (r.text.getD "")))
       else Except.error noImageGenericMsg) := by
  have t1 : truthyStr (some "NO_IMAGE") = true := by decide
  have t2 : (("NO_IMAGE" : String) == "STOP") = false := by decide
  have t3 : (("NO_IMAGE" : String) == "NO_IMAGE") = true := by decide
  simp [processImageResponse, hinline, hbr, hfr, t1, t2, t3]

/-- Claim C7 (amended): with no inline data, no block reason, and first
finish reason NO_IMAGE, the parser raises an error quoting the TRIMMED
response text when the text is present and non-empty (classifying as
unknown provided the quoted text introduces no classifier keyword), and
raises the generic could-not-generate message, which classifies as
unknown, when the text is absent or empty. -/
theorem claim_C7_noImage (r : GenerateContentResponse)
    (hinline : findInline (firstParts r) = none)
    (hbr : truthyStr (r.promptFeedback.bind fun pf => pf.blockReason) = false)
    (hfr : (firstCandidate r).bind (fun c => c.finishReason) = some "NO_IMAGE") :
    (∀ t, r.text = some t → t ≠ "" →
      processImageResponse r = Except.error (noImageExplanationMsg (jsTrim t)) ∧
      ((isAuthError (jsToLower (noImageExplanationMsg (jsTrim t))) = false ∧
        isRateLimitError (jsToLower (noImageExplanationMsg (jsTrim t))) = false ∧
        isQuotaError (jsToLower (noImageExplanationMsg (jsTrim t))) = false ∧
        isNetworkError (jsToLower (noImageExplanationMsg (jsTrim t))) = false ∧
        isServiceUnavailableError (jsToLower (noImageExplanationMsg (jsTrim t))) = false ∧
        isContentBlockedError (jsToLower (noImageExplanationMsg (jsTrim t))) = false) →
        (parseApiError (jsThrow (noImageExplanationMsg (jsTrim t)))).type =
          ErrorType.UNKNOWN_ERROR)) ∧
    (truthyStr r.text = false →
      processImageResponse r = Except.error noImageGenericMsg ∧
      (parseApiError (jsThrow noImageGenericMsg)).type = ErrorType.UNKNOWN_ERROR) := by
  have hrun := processImageResponse_noImage r hinline hbr hfr
  constructor
  · intro t ht hne
    have htt : truthyStr r.text = true := by
      rw [ht]
      simp [truthyStr, hne]
    rw [if_pos htt, ht] at hrun
    simp only [Option.getD_some] at hrun
    refine ⟨hrun, ?_⟩
    rintro ⟨h1, h2, h3, h4, h5, h6⟩
    have hfresh := parseApiError_fresh (jsThrow (noImageExplanationMsg (jsTrim t))) rfl
    have hmsg : errorMessageOf (jsThrow (noImageExplanationMsg (jsTrim t))) =
        noImageExplanationMsg (jsTrim t) := rfl
    rw [hfresh, hmsg, classifyMessage_unknown _ h1 h2 h3 h4 h5 h6]
  · intro hft
    rw [if_neg (by simp [hft])] at hrun
    refine ⟨hrun, ?_⟩
    decide

def envC7text : GenerateContentResponse :=
  { candidates := some [{ content := none, finishReason := some "NO_IMAGE" }]
    promptFeedback := none
    text := some "I cannot draw that" }

/-- Witness for C7 at the example text given in the spec. -/
theorem claim_C7_witness :
    processImageResponse envC7text =
      Except.error (noImageExplanationMsg "I cannot draw that") ∧
    (parseApiError (jsThrow (noImageExplanationMsg "I cannot draw that"))).type =
      ErrorType.UNKNOWN_ERROR := by
  have h := (claim_C7_noImage envC7text rfl rfl rfl).1 "I cannot draw that" rfl (by decide)
  exact ⟨h.1, h.2 (by decide)⟩

def envC7fetch : GenerateContentResponse :=
  { candidates := some [{ content := none, finishReason := some "NO_IMAGE" }]
    promptFeedback := none
    text := some " Unable to fetch the sketch " }

/-- Counterexample to C7 as stated: the quoted text is trimmed rather than
verbatim, and a text containing the keyword fetch makes the raised message
classify as NETWORK_ERROR, not unknown. -/
theorem claim_C7_counterexample :
    processImageResponse envC7fetch =
      Except.error (noImageExplanationMsg "Unable to fetch the sketch") ∧
    noImageExplanationMsg "Unable to fetch the sketch" ≠
      noImageExplanationMsg " Unable to fetch the sketch " ∧
    (parseApiError (jsThrow (noImageExplanationMsg "Unable to fetch the sketch"))).type =
      ErrorType.NETWORK_ERROR ∧
    ErrorType.NETWORK_ERROR ≠ ErrorType.UNKNOWN_ERROR := by
  refine ⟨rfl, ?_, ?_, ?_⟩ <;> decide

/-! ### Claims about the conversation submit handlers -/

/-- Claim C3 (amended): on a failing request the chatbot appends exactly the
failure marker followed by the user-facing message of the one classified
error produced for that failure, while the image studio appends the RAW
error message interpolated into a fixed apology sentence, without
classifying it. -/
theorem claim_C3_errorText (cs : ChatState) (ss : StudioState) (e1 e2 : ErrValue)
    (idNow idNext : String)
    (hc1 : jsTrim cs.currentMessage ≠ "") (hc2 : cs.isLoading = false)
    (hc3 : cs.chat = true) (hc4 : cs.isApiReady = true)
    (hs1 : jsTrim ss.prompt ≠ "") (hs2 : ss.isLoading = false)
    (hs3 : ss.isApiReady = true) :
    (chatHandleSendMessage cs (Except.error e1)).1.messages =
      cs.messages ++
        [{ role := "user", text := cs.currentMessage },
         { role := "model", text := "❌ " ++ getUserFriendlyErrorMessage e1 }] ∧
    (studioHandleSubmit ss idNow idNext (Except.error e2)).1.messages =
      ss.messages ++
        [{ id := idNow
           role := "user"
           text := some ss.prompt
           imageUrl := none
           originalImageUrl := ss.imageFile.map (fun f => f.objectUrl) },
         { id := idNext
           role := "model"
           text := some (studioSorryMsg (jsErrMessage e2))
           imageUrl := none
           originalImageUrl := none }] := by
  constructor
  · simp [chatHandleSendMessage, hc1, hc2, hc3, hc4]
  · simp [studioHandleSubmit, hs1, hs2, hs3]

def csC3 : ChatState :=
  { chat := true, messages := [], currentMessage := "hello", isLoading := false,
    isApiReady := true }

def ssC3 : StudioState :=
  { messages := [], prompt := "draw a cat", imageFile := none, isLoading := false,
    error := none, isApiReady := true }

/-- Witness for C3 on concrete states and a quota failure. -/
theorem claim_C3_witness :
    (chatHandleSendMessage csC3 (Except.error (jsThrow "quota exceeded"))).1.messages =
      csC3.messages ++
        [{ role := "user", text := csC3.currentMessage },
         { role := "model",
           text := "❌ " ++ getUserFriendlyErrorMessage (jsThrow "quota exceeded") }] ∧
    (studioHandleSubmit ssC3 "1" "2" (Except.error (jsThrow "quota exceeded"))).1.messages =
      ssC3.messages ++
        [{ id := "1"
           role := "user"
           text := some ssC3.prompt
           imageUrl := none
           originalImageUrl := ssC3.imageFile.map (fun f => f.objectUrl) },
         { id := "2"
           role := "model"
           text := some (studioSorryMsg (jsErrMessage (jsThrow "quota exceeded")))
           imageUrl := none
           originalImageUrl := none }] :=
  claim_C3_errorText csC3 ssC3 (jsThrow "quota exceeded") (jsThrow "quota exceeded")
    "1" "2" (by decide) rfl rfl rfl (by decide) rfl rfl

def ssC3cex : StudioState :=
  { messages := [], prompt := "draw a dog", imageFile := none, isLoading := false,
    error := none, isApiReady := true }

/-- Counterexample to C3 as stated: on a quota failure the image studio
appends the raw message inside an apology sentence; the appended text is
not the classified user-facing message of that failure, and the raw
message is displayed verbatim inside it. -/
theorem claim_C3_counterexample :
    (studioHandleSubmit ssC3cex "1" "2"
        (Except.error (jsThrow "quota exceeded for project"))).1.messages =
      [{ id := "1"
         role := "user"
         text := some "draw a dog"
         imageUrl := none
         originalImageUrl := none },
       { id := "2"
         role := "model"
         text := some (studioSorryMsg "quota exceeded for project")
         imageUrl := none
         originalImageUrl := none }] ∧
    studioSorryMsg "quota exceeded for project" ≠
      (parseApiError (jsThrow "quota exceeded for project")).userFriendlyMessage ∧
    studioSorryMsg "quota exceeded for project" ≠
      "❌ " ++ getUserFriendlyErrorMessage (jsThrow "quota exceeded for project") ∧
    includes (studioSorryMsg "quota exceeded for project") "quota exceeded for project" =
      true := by
  refine ⟨rfl, ?_, ?_, ?_⟩ <;> decide

/-- Claim C9: submitting a blank (empty or whitespace-only) prompt in either
conversation mode leaves the whole state, transcript included, unchanged
and issues no network call. -/
theorem claim_C9_blankSubmit (ss : StudioState) (cs : ChatState)
    (idNow idNext : String) (r1 r2 : Except ErrValue String)
    (hs : jsTrim ss.prompt = "") (hc : jsTrim cs.currentMessage = "") :
    studioHandleSubmit ss idNow idNext r1 = (ss, false) ∧
    chatHandleSendMessage cs r2 = (cs, false) := by
  constructor
  · simp [studioHandleSubmit, hs]
  · simp [chatHandleSendMessage, hc]

def ssBlank : StudioState :=
  { messages := [{ id := "0"
                   role := "model"
                   text := some "welcome"
                   imageUrl := none
                   originalImageUrl := none }]
    prompt := "   "
    imageFile := none
    isLoading := false
    error := none
    isApiReady := true }

def csBlank : ChatState :=
  { chat := true, messages := [{ role := "model", text := "hi" }], currentMessage := "",
    isLoading := false, isApiReady := true }

/-- Witness for C9 at a whitespace-only studio prompt and an empty chat
message. -/
theorem claim_C9_witness :
    jsTrim "   " = "" ∧
    studioHandleSubmit ssBlank "1" "2" (Except.ok "u") = (ssBlank, false) ∧
    chatHandleSendMessage csBlank (Except.ok "v") = (csBlank, false) :=
  ⟨by decide,
   (claim_C9_blankSubmit ssBlank csBlank "1" "2" (Except.ok "u") (Except.ok "v")
      (by decide) (by decide)).1,
   (claim_C9_blankSubmit ssBlank csBlank "1" "2" (Except.ok "u") (Except.ok "v")
      (by decide) (by decide)).2⟩
